import Mathlib

set_option maxRecDepth 10000

/-!
Verification development for the AutoDoc phased tool-orchestration pipeline
(`src/app/api/documentation/.../route.ts`, the file holding `POST`,
`executeAgent`, `getTools` and the `REQUIRED_TOOLS_*` constants).

The TypeScript is shallowly embedded: pure computations become Lean
functions, the sequential-chain control flow of `executeAgent` becomes an
explicit function over a scripted engine (each `generateText` call's outcome
is a field of an `EngineScript`), and JavaScript `throw`/`catch` becomes
`Except` threading.  Machine numbers that matter (page versions, budgets)
are `Int`/`Nat`; the budget computation `Math.floor(maxSteps * 0.4)` is
embedded as exact rational floor, which it equals at every natural budget
used by the program.
-/

namespace AutoDoc

/-- JavaScript `haystack.includes(needle)` on strings. -/
def jsIncludes (s sub : String) : Bool :=
  decide (sub.toList <:+: s.toList)

/-! ## Tool-argument and tool-result values

`updateConfluencePage` arguments are read by the repair code through the
cast `args as { pageId: string; title: string; content: string; version:
number }`; the recorded `version` can at runtime also be the literal string
"[Retrieved version]" (the source itself compares against it through a
double cast), so versions are embedded as a sum. -/

/-- A recorded `version` argument: a number or a literal string. -/
inductive VVal
  | num (n : Int)
  | str (s : String)
deriving DecidableEq, Repr

/-- The argument record of a recorded tool call, restricted to the fields
the pipeline ever reads (`pageId`, `title`, `version`, `content` of an
`updateConfluencePage` request; all other tools' arguments are never
inspected after recording). -/
structure ToolArgs where
  pageId : String
  title : String
  content : String
  version : VVal
deriving DecidableEq, Repr

/-- A full Confluence page as returned by `getConfluencePage` /
`findDocumentationPage` (shape `{ id, title, version: { number } }`). -/
structure PageMeta where
  id : String
  title : String
  version : Int
deriving DecidableEq, Repr

/-- A tool-result payload (`toolResults[0].result`).  `pageRef` is the
`{ pageId, title }` record returned by the create/update tools, `page` a
full page, `nullv` the JavaScript `null`, `other` any payload none of the
pipeline's casts can read page data out of. -/
inductive RVal
  | pageRef (pageId : String) (title : String)
  | page (p : PageMeta)
  | nullv
  | other
deriving DecidableEq, Repr

/-- Reading `.pageId` out of an arbitrary payload, as the `POST` handler's
cast does: defined on `pageRef`, `undefined` otherwise. -/
def RVal.pageIdField : RVal → Option String
  | .pageRef p _ => some p
  | _ => none

/-- Reading `.title` out of an arbitrary payload via the `POST` cast. -/
def RVal.titleField : RVal → Option String
  | .pageRef _ t => some t
  | _ => none

/-! ## Raw engine steps and scripted sessions -/

/-- One tool call as reported by the engine (`{ toolName, args }`). -/
structure RawToolCall where
  toolName : String
  args : ToolArgs
deriving DecidableEq, Repr

/-- One step of a `generateText` result.  `toolCalls`/`toolResults` are
`Option (List _)` because the source guards them with JavaScript
truthiness (`step.toolCalls && step.toolCalls.length > 0`): `none` is an
absent array, `some []` a present empty one (truthy in JavaScript). -/
structure RawStep where
  toolCalls : Option (List RawToolCall)
  text : Option String
  toolResults : Option (List RVal)
deriving DecidableEq, Repr

/-- The value of one `generateText` call: free text plus ordered steps. -/
structure SessionResult where
  text : String
  steps : List RawStep
deriving DecidableEq, Repr

/-- Scripted outcomes for the up-to-five `generateText` calls that
`executeAgent` can make, in program order.  An `Except.error` models the
call (or a collaborator inside one of its tool executions) throwing; the
message is the thrown `Error`'s message. -/
structure EngineScript where
  initial : Except String SessionResult
  initialRecovery : Except String SessionResult
  analysis : Except String SessionResult
  final : Except String SessionResult
  finalRecovery : Except String SessionResult
deriving Repr

/-! ## Step budgets (`executeAgent`, constants section)

`const initialStepsBudget = Math.floor(maxSteps * 0.4)` and friends;
embedded as exact floors of the rationals 0.4, 0.2, 0.4. -/

/-- `MAX_STEPS = 10`. -/
def MAX_STEPS : Nat := 10

/-- `Math.floor(maxSteps * 0.4)` — 40% of steps for initial retrieval. -/
def initialStepsBudget (maxSteps : Nat) : Nat := 2 * maxSteps / 5

/-- `Math.floor(maxSteps * 0.2)` — 20% of steps for analysis. -/
def analysisStepsBudget (maxSteps : Nat) : Nat := maxSteps / 5

/-- `Math.floor(maxSteps * 0.4)` — 40% of steps for the final phase. -/
def finalStepsBudget (maxSteps : Nat) : Nat := 2 * maxSteps / 5

/-! ## Required-tool sets -/

/-- `REQUIRED_TOOLS_GENERATE`. -/
def REQUIRED_TOOLS_GENERATE : List String :=
  ["getFileContent", "getInternalDependencies", "getBusinessLogicHistory",
   "markdownToConfluence", "createConfluencePage"]

/-- `REQUIRED_TOOLS_UPDATE_WITH_PAGE_ID`. -/
def REQUIRED_TOOLS_UPDATE_WITH_PAGE_ID : List String :=
  ["getConfluencePage", "getCommitDiff", "markdownToConfluence",
   "updateConfluencePage"]

/-- `REQUIRED_TOOLS_UPDATE_WITH_COMMIT`. -/
def REQUIRED_TOOLS_UPDATE_WITH_COMMIT : List String :=
  ["getCommitDiff", "findDocumentationPage", "markdownToConfluence",
   "updateConfluencePage"]

/-- The retrieval-phase gate set computed inside `executeAgent`
(`initialRequiredTools`): the three generate retrieval tools, or, for any
update, just `getCommitDiff`. -/
def initialRequiredTools (isGenerateAction : Bool) : List String :=
  if isGenerateAction then
    ["getFileContent", "getInternalDependencies", "getBusinessLogicHistory"]
  else
    ["getCommitDiff"]

/-- The final-phase gate set computed inside `executeAgent`
(`finalRequiredTools`). -/
def finalRequiredTools (isGenerateAction : Bool) : List String :=
  if isGenerateAction then
    ["markdownToConfluence", "createConfluencePage"]
  else
    ["markdownToConfluence", "updateConfluencePage"]

/-! ## Commit-id validation inside the `getCommitDiff` tool -/

/-- The placeholder test opening `getCommitDiff`'s executor:
`!commitId || commitId === "" || commitId === "[commit_id]" || ...`. -/
def isPlaceholderCommitId (c : String) : Bool :=
  c = "" || c = "[commit_id]" || c = "test_commit_id" ||
    c = "actual-commit_id" || c = "[example_commit_id]"

/-- One character of a hexadecimal revision token, case-insensitive
(the source regex carries the `i` flag). -/
def isHexDigitCI (ch : Char) : Bool :=
  ch.isDigit || ('a' ≤ ch && ch ≤ 'f') || ('A' ≤ ch && ch ≤ 'F')

/-- The shape check `/^[0-9a-f]{5,40}$/i.test(commitId)`. -/
def commitIdShapeOk (c : String) : Bool :=
  decide (5 ≤ c.length) && decide (c.length ≤ 40) && c.toList.all isHexDigitCI

/-- The `{ diff, files }` value the source-control collaborator returns. -/
structure DiffInfo where
  diff : String
  files : List String
deriving DecidableEq, Repr

/-- What the `getCommitDiff` tool returns to the engine: either the diff
record with a summary, or (after its own catch) an error record. -/
structure GetCommitDiffResult where
  error : Option String
  diff : String
  files : List String
  summary : Option String
deriving DecidableEq, Repr

/-- The `getCommitDiff` tool executor.  `collab` scripts the external
`getCommitDiff(commitId)` collaborator call; the second component of the
result records whether that collaborator was actually invoked.  Both
validation `throw`s happen inside the executor's own `try`, so its `catch`
turns them into the same error record it uses for collaborator failures —
the collaborator is simply never reached. -/
def getCommitDiffTool (commitId : String)
    (collab : Except String DiffInfo) : GetCommitDiffResult × Bool :=
  if isPlaceholderCommitId commitId then
    ({ error := some s!"Could not retrieve diff for commit {commitId}",
       diff := "", files := [], summary := none }, false)
  else if ¬ commitIdShapeOk commitId then
    ({ error := some s!"Could not retrieve diff for commit {commitId}",
       diff := "", files := [], summary := none }, false)
  else
    match collab with
    | .ok d =>
        ({ error := none, diff := d.diff, files := d.files,
           summary := some s!"Changes to {d.files.length} files in commit {commitId}" },
         true)
    | .error _ =>
        ({ error := some s!"Could not retrieve diff for commit {commitId}",
           diff := "", files := [], summary := none }, true)

/-! ## Recorded steps (`StepInfo`) -/

/-- `StepInfo.type`. -/
inductive StepType
  | tool
  | text
deriving DecidableEq, Repr

/-- `stepInfo.tool = { name, args }`. -/
structure ToolInfo where
  name : String
  args : ToolArgs
deriving DecidableEq, Repr

/-- One entry of `allSteps` (`interface StepInfo`). -/
structure StepInfo where
  type : StepType
  tool : Option ToolInfo
  text : Option String
  toolResult : Option RVal
deriving DecidableEq, Repr

/-- The recording block repeated after every `generateText` call:
`type` is `"tool"` iff `step.toolCalls` is present (a present-but-empty
array is truthy), `tool` is set from the first tool call when the array is
present and non-empty, `text` from a truthy `step.text`, `toolResult` from
the first entry of a present non-empty `step.toolResults`. -/
def toStepInfo (s : RawStep) : StepInfo :=
  { type := if s.toolCalls.isSome then .tool else .text
    tool :=
      match s.toolCalls with
      | some (tc :: _) => some ⟨tc.toolName, tc.args⟩
      | _ => none
    text :=
      match s.text with
      | some t => if t = "" then none else some t
      | none => none
    toolResult :=
      match s.toolResults with
      | some (r :: _) => some r
      | _ => none }

/-- The set of tool names executed in a list of raw steps, collected from
each step's first tool call (the source reads only `step.toolCalls[0]`). -/
def executedNames (steps : List RawStep) : List String :=
  steps.foldl
    (fun acc s =>
      match s.toolCalls with
      | some (tc :: _) => acc ++ [tc.toolName]
      | _ => acc) []

/-! ## Discovered entities -/

/-- The `retrievedPageId` / `retrievedPageTitle` / `retrievedPageVersion`
triple (`retrievedPageVersion` starts at the number 0, not null). -/
structure Retrieved where
  pageId : Option String
  pageTitle : Option String
  pageVersion : Int
deriving DecidableEq, Repr

/-- JavaScript `opt || dflt` on an optional string. -/
def jsOrElse (o : Option String) (dflt : String) : String :=
  match o with
  | some s => if s = "" then dflt else s
  | none => dflt

/-- Processing one step of the discovery scan over
`initialDataResult.steps`: a `getConfluencePage` result with a truthy
payload overwrites all three fields from the page (no defaulting); a
`findDocumentationPage` result sets them only when the page's `id` is
truthy, defaulting an empty title to "Documentation" and a falsy version
number to 1.  Both tools return a full page or `null`, so only those
payload shapes are read. -/
def updateRetrieved (r : Retrieved) (s : RawStep) : Retrieved :=
  match s.toolCalls with
  | some (tc :: _) =>
    if tc.toolName = "getConfluencePage" then
      match s.toolResults with
      | some (rv :: _) =>
        match rv with
        | .page p => { pageId := some p.id, pageTitle := some p.title, pageVersion := p.version }
        | _ => r
      | _ => r
    else if tc.toolName = "findDocumentationPage" then
      match s.toolResults with
      | some (rv :: _) =>
        match rv with
        | .page p =>
            if p.id ≠ "" then
              { pageId := some p.id
                pageTitle := some (if p.title = "" then "Documentation" else p.title)
                pageVersion := if p.version = 0 then 1 else p.version }
            else r
        | _ => r
      | _ => r
    else r
  | _ => r

/-- The scan over `initialDataResult.steps` (and only those steps) that
populates the discovered-entities cache. -/
def computeRetrieved (steps : List RawStep) : Retrieved :=
  steps.foldl updateRetrieved { pageId := none, pageTitle := none, pageVersion := 0 }

/-! ## Argument repair -/

/-- The sentinel pageId test `args.pageId === "123" || args.pageId ===
"[Retrieved pageId]"`. -/
def isPlaceholderPageId (p : String) : Bool :=
  p = "123" || p = "[Retrieved pageId]"

/-- The body of the placeholder fix for one `updateConfluencePage`
argument record, given a truthy `retrievedPageId` (`rid`): when the
recorded `pageId` is truthy and a sentinel, it is overwritten with `rid`;
only inside that branch, a title equal to "[Retrieved title]" or falsy is
replaced by `retrievedPageTitle || "Documentation"`, and a version equal
to the number 1, the number 0, or the string "[Retrieved version]" is
replaced by `retrievedPageVersion`. -/
def repairUpdateArgs (rid : String) (rtitle : Option String) (rver : Int)
    (args : ToolArgs) : ToolArgs :=
  if args.pageId ≠ "" ∧ isPlaceholderPageId args.pageId then
    { args with
      pageId := rid
      title :=
        if args.title = "[Retrieved title]" ∨ args.title = "" then
          jsOrElse rtitle "Documentation"
        else args.title
      version :=
        if args.version = .num 1 ∨ args.version = .num 0 ∨
            args.version = .str "[Retrieved version]" then
          .num rver
        else args.version }
  else args

/-- The repair guard around one recorded tool call in the final phase:
`toolName === "updateConfluencePage" && retrievedPageId` (truthy). -/
def repairToolCall (r : Retrieved) (tc : RawToolCall) : ToolArgs :=
  match r.pageId with
  | some rid =>
      if tc.toolName = "updateConfluencePage" ∧ rid ≠ "" then
        repairUpdateArgs rid r.pageTitle r.pageVersion tc.args
      else tc.args
  | none => tc.args

/-- The final-phase recording block: identical to `toStepInfo` except that
the first tool call's arguments pass through the placeholder repair. -/
def toStepInfoRepaired (r : Retrieved) (s : RawStep) : StepInfo :=
  { toStepInfo s with
    tool :=
      match s.toolCalls with
      | some (tc :: _) => some ⟨tc.toolName, repairToolCall r tc⟩
      | _ => none }

/-! ## The catch block of `executeAgent` -/

/-- The error-message synthesis in `executeAgent`'s catch: the thrown
error's message is classified by substring and prefixed with
"Error in documentation process: ". -/
def errorMessageFor (msg : String) : String :=
  "Error in documentation process: " ++
    (if jsIncludes msg "Commit not found" || jsIncludes msg "bad object" then
      "The specified commit ID could not be found in the repository. Please verify the commit ID is correct."
    else if jsIncludes msg "placeholder commit ID" ||
        jsIncludes msg "A valid commit ID is required" ||
        jsIncludes msg "Invalid commit ID format" then
      "A valid commit ID is required for this operation. Please provide a valid Git commit hash."
    else if jsIncludes msg "Failed to update Confluence page" ||
        jsIncludes msg "Failed to create Confluence page" then
      "There was a problem with the Confluence API. " ++ msg
    else msg)

/-! ## `executeAgent` -/

/-- Which `generateText` invocation a session call is. -/
inductive PhaseLabel
  | initial
  | initialRecovery
  | analysis
  | final
  | finalRecovery
deriving DecidableEq, Repr

/-- Ghost instrumentation: one `generateText` call with its `maxSteps`
budget, recorded in program order. -/
structure SessionCall where
  phase : PhaseLabel
  budget : Nat
deriving DecidableEq, Repr

/-- What `executeAgent` returns (`{ response, steps }`), plus the ghost
trace of the engine sessions it invoked. -/
structure AgentResult where
  response : String
  steps : List StepInfo
  calls : List SessionCall
deriving DecidableEq, Repr

/-- The continuation of `executeAgent` from the Analysis phase on
(`STEP 2` and `STEP 3` of the source's sequential chain), shared by the
with-recovery and without-recovery exits from the initial gate.  `acc2`
and `calls2` are the steps and session calls accumulated so far;
discovered entities are computed from the initial session's own steps,
and only the main final session's recorded calls pass through argument
repair (the final recovery's records are appended unrepaired). -/
def executeAgentTail (isGenerateAction : Bool)
    (analysisBudget finalBudget : Nat) (script : EngineScript)
    (initialRes : SessionResult) (acc2 : List StepInfo)
    (calls2 : List SessionCall) : AgentResult :=
  match script.analysis with
  | .error e =>
      { response := errorMessageFor e, steps := acc2
        calls := calls2 ++ [⟨.analysis, analysisBudget⟩] }
  | .ok analysisRes =>
    let acc3 := acc2 ++ analysisRes.steps.map toStepInfo
    let calls3 := calls2 ++ [⟨.analysis, analysisBudget⟩]
    let retrieved := computeRetrieved initialRes.steps
    match script.final with
    | .error e =>
        { response := errorMessageFor e, steps := acc3
          calls := calls3 ++ [⟨.final, finalBudget⟩] }
    | .ok finalRes =>
      let acc4 := acc3 ++ finalRes.steps.map (toStepInfoRepaired retrieved)
      let calls4 := calls3 ++ [⟨.final, finalBudget⟩]
      let missingFinal := (finalRequiredTools isGenerateAction).filter
        (fun t => ! (executedNames finalRes.steps).contains t)
      if missingFinal.isEmpty then
        { response := finalRes.text, steps := acc4, calls := calls4 }
      else
        match script.finalRecovery with
        | .error e =>
            { response := errorMessageFor e, steps := acc4
              calls := calls4 ++ [⟨.finalRecovery, finalBudget / 2⟩] }
        | .ok recoveryRes =>
            { response := recoveryRes.text
              steps := acc4 ++ recoveryRes.steps.map toStepInfo
              calls := calls4 ++ [⟨.finalRecovery, finalBudget / 2⟩] }

/-- The sequential-chain driver `executeAgent`.  The five potential
`generateText` calls are scripted by `script`; a scripted `.error` models
that call (the engine itself, or a collaborator inside one of its tool
executions) throwing, which lands in the function's single catch: the
steps accumulated so far are kept and the response becomes the classified
error message.  The initial gate runs the retrieval recovery at half the
initial budget exactly when retrieval-required tools are missing, and the
recovery's records are appended unconditionally; the rest of the chain is
`executeAgentTail`. -/
def executeAgent (systemPrompt : String) (script : EngineScript)
    (maxSteps : Nat) : AgentResult :=
  let initialBudget := initialStepsBudget maxSteps
  let isGenerateAction := jsIncludes systemPrompt "Generate Documentation in Confluence"
  match script.initial with
  | .error e =>
      { response := errorMessageFor e, steps := []
        calls := [⟨.initial, initialBudget⟩] }
  | .ok initialRes =>
    let missingInit := (initialRequiredTools isGenerateAction).filter
      (fun t => ! (executedNames initialRes.steps).contains t)
    if missingInit.isEmpty then
      executeAgentTail isGenerateAction (analysisStepsBudget maxSteps)
        (finalStepsBudget maxSteps) script initialRes
        (initialRes.steps.map toStepInfo) [⟨.initial, initialBudget⟩]
    else
      match script.initialRecovery with
      | .error e =>
          { response := errorMessageFor e
            steps := initialRes.steps.map toStepInfo
            calls := [⟨.initial, initialBudget⟩, ⟨.initialRecovery, initialBudget / 2⟩] }
      | .ok recoveryRes =>
          executeAgentTail isGenerateAction (analysisStepsBudget maxSteps)
            (finalStepsBudget maxSteps) script initialRes
            (initialRes.steps.map toStepInfo ++ recoveryRes.steps.map toStepInfo)
            [⟨.initial, initialBudget⟩, ⟨.initialRecovery, initialBudget / 2⟩]

/-! ## The `POST` handler -/

/-- `DocumentationRequest` (`types.ts`); the optional fields are `Option`. -/
structure DocumentationRequest where
  action : String
  commitId : Option String
  filePath : Option String
  spaceId : Option String
  parentPageId : Option String
  pageId : Option String
deriving DecidableEq, Repr

/-- JavaScript truthiness of an optional string field. -/
def jsTruthyOpt (o : Option String) : Bool :=
  match o with
  | some s => s ≠ ""
  | none => false

/-- The shared opening of both system prompts.  Only the task-header line
appended after it is ever inspected by code (via
`systemPrompt.includes("Generate Documentation in Confluence")` in
`executeAgent`), so the long natural-language instruction body after the
header is elided here. -/
def basePrompt : String :=
  "You are an expert documentation generator specializing in creating comprehensive and technical documentation for code files."

/-- `getSystemPrompt`: the generate prompt carries the header
"System Task: Generate Documentation in Confluence", every other action
the update header.  Instruction bodies elided (never inspected). -/
def getSystemPrompt (action : String) : String :=
  if action = "generate" then
    basePrompt ++ "\n    \n    System Task: Generate Documentation in Confluence\n"
  else
    basePrompt ++ "\n    \n    System Task: Update Existing Documentation in Confluence\n"

/-- The `requiredTools` selection in `POST` (lines after the request is
validated): generate, update-with-pageId, update-with-commitId, or an
empty list when none of the guards match. -/
def requiredToolsFor (data : DocumentationRequest) : List String :=
  if data.action = "generate" then REQUIRED_TOOLS_GENERATE
  else if data.action = "update" ∧ jsTruthyOpt data.pageId then
    REQUIRED_TOOLS_UPDATE_WITH_PAGE_ID
  else if data.action = "update" ∧ jsTruthyOpt data.commitId then
    REQUIRED_TOOLS_UPDATE_WITH_COMMIT
  else []

/-- One iteration of the `result.steps.forEach` scan in `POST`: collects
the executed tool name (from a step whose `type` is `"tool"` with `tool`
set) and overwrites the tracked `pageId`/`title` with the fields of a
`createConfluencePage`/`updateConfluencePage` result.  Reading those
fields when the step carries no `toolResult` at all is the JavaScript
property access on `undefined`, which throws — modelled as
`Except.error`, landing in `POST`'s catch. -/
def postStep (step : StepInfo)
    (st : List String × Option String × Option String) :
    Except String (List String × Option String × Option String) :=
  let (ex, pid, ptitle) := st
  match step.tool with
  | some t =>
      if step.type = StepType.tool then
        -- `executedTools.add(t.name)` happens in both tool branches; the
        -- create and update branches read the same two result fields
        if t.name = "createConfluencePage" ∨ t.name = "updateConfluencePage" then
          match step.toolResult with
          | none => .error "TypeError: cannot read pageId of undefined"
          | some rv => .ok (ex ++ [t.name], rv.pageIdField, rv.titleField)
        else .ok (ex ++ [t.name], pid, ptitle)
      else .ok (ex, pid, ptitle)
  | none => .ok (ex, pid, ptitle)

/-- The whole `result.steps.forEach` scan, as a fold of `postStep`; once a
step has thrown, the error propagates (the remaining iterations of the
JavaScript loop are never reached because the exception aborts it). -/
def processResultSteps (steps : List StepInfo) :
    Except String (List String × Option String × Option String) :=
  steps.foldl
    (fun acc step =>
      match acc with
      | .ok st => postStep step st
      | .error e => .error e)
    (.ok ([], none, none))

/-- A recorded step that is a `createConfluencePage` or
`updateConfluencePage` tool step (the steps whose results feed the
outcome's `pageId`/`title`). -/
def isPageWriteStep (s : StepInfo) : Bool :=
  match s.tool with
  | some ti =>
      decide (s.type = StepType.tool) &&
        (decide (ti.name = "createConfluencePage") ||
          decide (ti.name = "updateConfluencePage"))
  | none => false

/-- The most recent create/update record among the recorded steps. -/
def lastPageWrite (steps : List StepInfo) : Option StepInfo :=
  (steps.filter isPageWriteStep).getLast?

/-- The JSON body + status that `POST` replies with, flattened into one
record; fields a given branch does not emit are `none`. -/
structure ApiResponse where
  status : Nat
  success : Bool
  partialSuccess : Option Bool
  missingSteps : Option (List String)
  pageId : Option String
  title : Option String
  message : Option String
  error : Option String
  details : Option String
deriving DecidableEq, Repr

/-- The 400 reply for a request with no truthy `action`. -/
def invalidRequestResponse : ApiResponse :=
  { status := 400, success := false, partialSuccess := none
    missingSteps := none, pageId := none, title := none, message := none
    error := some "Missing required fields in request", details := none }

/-- The 500 reply from `POST`'s catch. -/
def errorResponse (details : String) : ApiResponse :=
  { status := 500, success := false, partialSuccess := none
    missingSteps := none, pageId := none, title := none, message := none
    error := some "Error processing documentation request"
    details := some details }

/-- The outcome-assembly tail of `POST` over the agent's recorded steps:
compute executed tools and latest page reference, then branch on the
missing required tools exactly as the source does. -/
def buildResponse (action : String) (requiredTools : List String)
    (steps : List StepInfo) : ApiResponse :=
  match processResultSteps steps with
  | .error msg => errorResponse msg
  | .ok (executedTools, pageId, pageTitle) =>
    let missingTools := requiredTools.filter (fun t => ! executedTools.contains t)
    if missingTools.isEmpty then
      { status := 200, success := true, partialSuccess := none
        missingSteps := none, pageId := pageId, title := pageTitle
        message := some s!"Documentation {action} completed successfully."
        error := none, details := none }
    else
      let criticalMissingTools :=
        if action = "update" then
          missingTools.filter
            (fun t => (["markdownToConfluence", "updateConfluencePage"] : List String).contains t)
        else []
      if action = "update" ∧ ¬ criticalMissingTools.isEmpty then
        { status := 200, success := false
          partialSuccess := some (missingTools.length ≠ requiredTools.length)
          missingSteps := some missingTools, pageId := none, title := none
          message := some ("Documentation update was incomplete. Critical tools were not executed: "
            ++ String.intercalate ", " criticalMissingTools)
          error := none, details := none }
      else
        { status := 200, success := false, partialSuccess := some true
          missingSteps := some missingTools, pageId := none, title := none
          message := some s!"Documentation {action} was incomplete. Some required tools were not executed."
          error := none, details := none }

/-- The `POST` handler: validate, pick the required-tool set and prompts,
run `executeAgent` against the scripted engine, and assemble the reply.
The second component is the ghost trace of engine sessions the run
performed (empty iff the pipeline was never invoked). -/
def postHandler (data : DocumentationRequest) (script : EngineScript) :
    ApiResponse × List SessionCall :=
  if data.action = "" then (invalidRequestResponse, [])
  else
    let requiredTools := requiredToolsFor data
    let systemPrompt := getSystemPrompt data.action
    let result := executeAgent systemPrompt script MAX_STEPS
    (buildResponse data.action requiredTools result.steps, result.calls)

/-! ## Concrete fixtures used by witnesses and counterexamples -/

/-- Neutral arguments for tool calls whose arguments are never read. -/
def dummyArgs : ToolArgs :=
  { pageId := "", title := "", content := "", version := .num 0 }

/-- A raw step that calls `getCommitDiff` and gets an unremarkable result. -/
def stepCommitDiff : RawStep :=
  { toolCalls := some [⟨"getCommitDiff", dummyArgs⟩]
    text := none, toolResults := some [.other] }

/-- A raw step whose `getConfluencePage` call returns page 42 at version 3. -/
def stepGetPage : RawStep :=
  { toolCalls := some [⟨"getConfluencePage", dummyArgs⟩]
    text := none, toolResults := some [.page ⟨"42", "Doc Title", 3⟩] }

/-- A raw step whose `updateConfluencePage` call still carries the
engine's placeholder arguments. -/
def stepUpdatePlaceholder : RawStep :=
  { toolCalls := some [⟨"updateConfluencePage",
      { pageId := "[Retrieved pageId]", title := "[Retrieved title]"
        content := "c", version := .num 1 }⟩]
    text := none, toolResults := some [.pageRef "42" "Doc Title"] }

/-- Recorded steps of a Generate run that executed all five required
tools, the page creation returning page 99. -/
def generateRunSteps : List StepInfo :=
  [⟨.tool, some ⟨"getFileContent", dummyArgs⟩, none, some .other⟩,
   ⟨.tool, some ⟨"getInternalDependencies", dummyArgs⟩, none, some .other⟩,
   ⟨.tool, some ⟨"getBusinessLogicHistory", dummyArgs⟩, none, some .other⟩,
   ⟨.tool, some ⟨"markdownToConfluence", dummyArgs⟩, none, some .other⟩,
   ⟨.tool, some ⟨"createConfluencePage", dummyArgs⟩, none,
     some (.pageRef "99" "Generated Doc")⟩]

/-- Recorded steps of an Update run that never called
`updateConfluencePage`. -/
def updateIncompleteSteps : List StepInfo :=
  [⟨.tool, some ⟨"getConfluencePage", dummyArgs⟩, none,
     some (.page ⟨"42", "Doc Title", 3⟩)⟩,
   ⟨.tool, some ⟨"getCommitDiff", dummyArgs⟩, none, some .other⟩,
   ⟨.tool, some ⟨"markdownToConfluence", dummyArgs⟩, none, some .other⟩]

/-- A session with no steps and no text. -/
def emptySession : SessionResult := { text := "", steps := [] }

/-- A benign engine script: every potential session succeeds and does
nothing. -/
def benignScript : EngineScript :=
  { initial := .ok emptySession, initialRecovery := .ok emptySession
    analysis := .ok emptySession, final := .ok emptySession
    finalRecovery := .ok emptySession }

/-- A script in which the page is discovered only during the Analysis
session, and the Publish session's `updateConfluencePage` call carries
placeholder arguments. -/
def lateDiscoveryScript : EngineScript :=
  { initial := .ok ⟨"t1", [stepCommitDiff]⟩
    initialRecovery := .ok emptySession
    analysis := .ok ⟨"t2", [stepGetPage]⟩
    final := .ok ⟨"t3", [stepUpdatePlaceholder]⟩
    finalRecovery := .ok ⟨"t4", []⟩ }

/-- A script whose Publish session throws (a collaborator failure inside
`updateConfluencePage`), after a clean Retrieval and Analysis. -/
def publishFailureScript : EngineScript :=
  { initial := .ok ⟨"t1", [stepCommitDiff]⟩
    initialRecovery := .ok emptySession
    analysis := .ok ⟨"t2", []⟩
    final := .error "Failed to update Confluence page: Request failed with status code 409"
    finalRecovery := .ok emptySession }

/-- An ordinary update request with a known pageId and valid commit. -/
def updateRequest : DocumentationRequest :=
  { action := "update", commitId := some "deadbeef", filePath := none
    spaceId := some "SPACE", parentPageId := none, pageId := some "42" }

/-- An update request whose `commitId` is the literal placeholder. -/
def placeholderCommitRequest : DocumentationRequest :=
  { action := "update", commitId := some "[commit_id]", filePath := none
    spaceId := some "SPACE", parentPageId := none, pageId := some "42" }

/-! ## C9 — budget allocation -/

/-- C9: for every total step budget B, the phase allocations are exactly
`Retrieval = ⌊0.4·B⌋`, `Analysis = ⌊0.2·B⌋`, `Publish = ⌊0.4·B⌋`, and
their sum never exceeds B. -/
theorem budget_allocation_and_conservation (B : ℕ) :
    initialStepsBudget B = ⌊(0.4 : ℚ) * B⌋₊ ∧
    analysisStepsBudget B = ⌊(0.2 : ℚ) * B⌋₊ ∧
    finalStepsBudget B = ⌊(0.4 : ℚ) * B⌋₊ ∧
    initialStepsBudget B + analysisStepsBudget B + finalStepsBudget B ≤ B := by
  refine ⟨?_, ?_, ?_, ?_⟩
  · have h : (0.4 : ℚ) * B = ((2 * B : ℕ) : ℚ) / ((5 : ℕ) : ℚ) := by push_cast; ring
    rw [h, Nat.floor_div_nat, Nat.floor_natCast, initialStepsBudget]
  · have h : (0.2 : ℚ) * B = ((B : ℕ) : ℚ) / ((5 : ℕ) : ℚ) := by push_cast; ring
    rw [h, Nat.floor_div_nat, Nat.floor_natCast, analysisStepsBudget]
  · have h : (0.4 : ℚ) * B = ((2 * B : ℕ) : ℚ) / ((5 : ℕ) : ℚ) := by push_cast; ring
    rw [h, Nat.floor_div_nat, Nat.floor_natCast, finalStepsBudget]
  · simp only [initialStepsBudget, analysisStepsBudget, finalStepsBudget]
    omega

/-! ## C5 — the retrieval-phase gate sets -/

/-- C5 counterexample: for an Update task (the update system prompt is
used whether or not a pageId is known), the retrieval gate inside
`executeAgent` checks only `getCommitDiff`; it checks neither
`getConfluencePage` (claimed for the pageId-known variant) nor
`findDocumentationPage` (claimed for the pageId-unknown variant). -/
theorem retrieval_gate_update_counterexample :
    initialRequiredTools
        (jsIncludes (getSystemPrompt "update") "Generate Documentation in Confluence") =
      ["getCommitDiff"] ∧
    "getConfluencePage" ∉
      initialRequiredTools
        (jsIncludes (getSystemPrompt "update") "Generate Documentation in Confluence") ∧
    "findDocumentationPage" ∉
      initialRequiredTools
        (jsIncludes (getSystemPrompt "update") "Generate Documentation in Confluence") := by
  refine ⟨?_, by decide, by decide⟩
  decide

/-- C5 amended: the retrieval gate checks
{getFileContent, getInternalDependencies, getBusinessLogicHistory} for a
Generate task and exactly {getCommitDiff} for an Update task of either
variant; `getConfluencePage` and `findDocumentationPage` appear only in
the run-level required sets that `POST` checks after the whole pipeline. -/
theorem retrieval_gate_sets :
    initialRequiredTools
        (jsIncludes (getSystemPrompt "generate") "Generate Documentation in Confluence") =
      ["getFileContent", "getInternalDependencies", "getBusinessLogicHistory"] ∧
    initialRequiredTools
        (jsIncludes (getSystemPrompt "update") "Generate Documentation in Confluence") =
      ["getCommitDiff"] ∧
    "getConfluencePage" ∈ REQUIRED_TOOLS_UPDATE_WITH_PAGE_ID ∧
    "findDocumentationPage" ∈ REQUIRED_TOOLS_UPDATE_WITH_COMMIT := by
  refine ⟨by decide, by decide, by decide, by decide⟩

/-! ## C4 — commit-id rejection -/

/-- C4 counterexample: a task whose `commitId` is the literal placeholder
"[commit_id]" passes `POST`'s only pre-pipeline validation (a truthy
`action`) and the pipeline is invoked: the run performs five engine
sessions (initial, initial recovery, analysis, final, final recovery)
instead of being rejected beforehand. -/
theorem commit_rejection_counterexample :
    (postHandler placeholderCommitRequest benignScript).2 =
      [⟨.initial, 4⟩, ⟨.initialRecovery, 2⟩, ⟨.analysis, 2⟩,
       ⟨.final, 4⟩, ⟨.finalRecovery, 2⟩] ∧
    (postHandler placeholderCommitRequest benignScript).2 ≠ [] := by
  refine ⟨by decide, by decide⟩

/-- C4 amended: a `commitId` that is falsy/empty, one of the known
placeholder strings, or fails the case-insensitive shape check
`^[0-9a-f]{5,40}$/i` is rejected inside the `getCommitDiff` tool executor
when the engine invokes that tool — before the tool's source-control
collaborator call is made — and the rejection is surfaced to the engine as
an error result (the executor's own catch), not as a task-terminating
`InvalidReference`; a commit id failing only the lowercase reading of the
regex, such as "DEADBEEF", is accepted and reaches the collaborator. -/
theorem commit_rejection_in_tool (c : String) (collab : Except String DiffInfo)
    (h : isPlaceholderCommitId c = true ∨ commitIdShapeOk c = false) :
    getCommitDiffTool c collab =
      ({ error := some s!"Could not retrieve diff for commit {c}",
         diff := "", files := [], summary := none }, false) ∧
    (getCommitDiffTool "DEADBEEF" (.ok ⟨"d", []⟩)).2 = true := by
  constructor
  · rcases h with h | h
    · simp [getCommitDiffTool, h]
    · simp [getCommitDiffTool, h]
  · decide

/-- C4 witness: the placeholder "[commit_id]" is refused inside the tool
with no collaborator call, even when the collaborator would succeed. -/
theorem commit_rejection_in_tool_witness :
    getCommitDiffTool "[commit_id]" (.ok ⟨"diff text", ["a.ts"]⟩) =
      ({ error := some "Could not retrieve diff for commit [commit_id]",
         diff := "", files := [], summary := none }, false) :=
  (commit_rejection_in_tool "[commit_id]" (.ok ⟨"diff text", ["a.ts"]⟩)
    (Or.inl (by decide))).1

/-! ## Helper notions for the outcome-assembly claims -/

theorem processResultSteps_concat (l : List StepInfo) (x : StepInfo) :
    processResultSteps (l ++ [x]) =
      match processResultSteps l with
      | .ok st => postStep x st
      | .error e => .error e := by
  simp [processResultSteps, List.foldl_append]

theorem lastPageWrite_concat (l : List StepInfo) (x : StepInfo) :
    lastPageWrite (l ++ [x]) =
      if isPageWriteStep x then some x else lastPageWrite l := by
  by_cases hx : isPageWriteStep x
  · simp [lastPageWrite, List.filter_append, hx, List.getLast?_concat]
  · simp [lastPageWrite, List.filter_append, hx]

/-- Invariant of the `result.steps.forEach` scan: when it completes
without throwing, `executedTools` holds exactly the names of the recorded
tool steps, the tracked `pageId`/`title` are the respective fields of the
most recent create/update record's result, and every create/update record
carried a result. -/
theorem processResultSteps_ok_spec (steps : List StepInfo) :
    ∀ executed pid ptitle,
      processResultSteps steps = .ok (executed, pid, ptitle) →
      (∀ nm : String, nm ∈ executed ↔
        ∃ s ∈ steps, s.type = StepType.tool ∧ ∃ ti, s.tool = some ti ∧ ti.name = nm) ∧
      pid = ((lastPageWrite steps).bind StepInfo.toolResult).bind RVal.pageIdField ∧
      ptitle = ((lastPageWrite steps).bind StepInfo.toolResult).bind RVal.titleField ∧
      (∀ s ∈ steps, isPageWriteStep s = true → ∃ rv, s.toolResult = some rv) := by
  induction steps using List.reverseRecOn with
  | nil =>
    intro executed pid ptitle h
    simp only [processResultSteps, List.foldl_nil, Except.ok.injEq, Prod.mk.injEq] at h
    obtain ⟨h1, h2, h3⟩ := h
    subst h1; subst h2; subst h3
    simp [lastPageWrite]
  | append_singleton l x ih =>
    intro executed pid ptitle h
    rw [processResultSteps_concat] at h
    cases hl : processResultSteps l with
    | error e => rw [hl] at h; exact absurd h (by simp)
    | ok st =>
      obtain ⟨ex0, pid0, pt0⟩ := st
      rw [hl] at h
      replace h : postStep x (ex0, pid0, pt0) = .ok (executed, pid, ptitle) := h
      obtain ⟨ihmem, ihpid, ihpt, ihres⟩ := ih ex0 pid0 pt0 hl
      rcases hxt : x.tool with _ | ti
      · -- `step.tool` unset: the step contributes nothing
        have hpw : isPageWriteStep x = false := by simp [isPageWriteStep, hxt]
        simp only [postStep, hxt, Except.ok.injEq, Prod.mk.injEq] at h
        obtain ⟨h1, h2, h3⟩ := h
        subst h1; subst h2; subst h3
        refine ⟨?_, ?_, ?_, ?_⟩
        · intro nm
          rw [ihmem nm]
          constructor
          · rintro ⟨s, hs, rest⟩; exact ⟨s, by simp [hs], rest⟩
          · rintro ⟨s, hs, rest⟩
            rcases List.mem_append.mp hs with hs | hs
            · exact ⟨s, hs, rest⟩
            · obtain ⟨_, ti', hti', _⟩ := rest
              simp at hs
              subst hs
              simp [hxt] at hti'
        · rw [lastPageWrite_concat, if_neg (by simp [hpw])]; exact ihpid
        · rw [lastPageWrite_concat, if_neg (by simp [hpw])]; exact ihpt
        · intro s hs hws
          rcases List.mem_append.mp hs with hs | hs
          · exact ihres s hs hws
          · simp at hs; subst hs; rw [hpw] at hws; exact absurd hws (by simp)
      · by_cases htype : x.type = StepType.tool
        · by_cases hname : ti.name = "createConfluencePage" ∨ ti.name = "updateConfluencePage"
          · -- a page-write step: must carry a result, which overwrites pid/ptitle
            have hpw : isPageWriteStep x = true := by
              rcases hname with hn | hn <;> simp [isPageWriteStep, hxt, htype, hn]
            cases hres : x.toolResult with
            | none =>
                simp only [postStep, hxt] at h
                rw [if_pos htype, if_pos hname, hres] at h
                exact absurd h (by simp)
            | some rv =>
                simp only [postStep, hxt] at h
                rw [if_pos htype, if_pos hname, hres] at h
                simp only [Except.ok.injEq, Prod.mk.injEq] at h
                obtain ⟨h1, h2, h3⟩ := h
                subst h1; subst h2; subst h3
                refine ⟨?_, ?_, ?_, ?_⟩
                · intro nm
                  rw [List.mem_append, ihmem nm]
                  constructor
                  · rintro (⟨s, hs, rest⟩ | hnm)
                    · exact ⟨s, by simp [hs], rest⟩
                    · simp at hnm
                      exact ⟨x, by simp, htype, ti, hxt, hnm.symm⟩
                  · rintro ⟨s, hs, rest⟩
                    rcases List.mem_append.mp hs with hs | hs
                    · exact Or.inl ⟨s, hs, rest⟩
                    · simp at hs; subst hs
                      obtain ⟨_, ti', hti', hnm⟩ := rest
                      rw [hxt] at hti'
                      cases hti'
                      simp [hnm]
                · rw [lastPageWrite_concat, if_pos (by simp [hpw])]
                  simp [hres]
                · rw [lastPageWrite_concat, if_pos (by simp [hpw])]
                  simp [hres]
                · intro s hs hws
                  rcases List.mem_append.mp hs with hs | hs
                  · exact ihres s hs hws
                  · simp at hs; subst hs; exact ⟨rv, hres⟩
          · -- an ordinary tool step: name recorded, page data untouched
            have hpw : isPageWriteStep x = false := by
              rw [isPageWriteStep.eq_def, hxt]
              simp only [Bool.and_eq_false_iff]
              right
              rw [Bool.or_eq_false_iff]
              constructor
              · simpa using fun hc => hname (Or.inl hc)
              · simpa using fun hc => hname (Or.inr hc)
            simp only [postStep, hxt] at h
            rw [if_pos htype, if_neg hname] at h
            simp only [Except.ok.injEq, Prod.mk.injEq] at h
            obtain ⟨h1, h2, h3⟩ := h
            subst h1; subst h2; subst h3
            refine ⟨?_, ?_, ?_, ?_⟩
            · intro nm
              rw [List.mem_append, ihmem nm]
              constructor
              · rintro (⟨s, hs, rest⟩ | hnm)
                · exact ⟨s, by simp [hs], rest⟩
                · simp at hnm
                  exact ⟨x, by simp, htype, ti, hxt, hnm.symm⟩
              · rintro ⟨s, hs, rest⟩
                rcases List.mem_append.mp hs with hs | hs
                · exact Or.inl ⟨s, hs, rest⟩
                · simp at hs; subst hs
                  obtain ⟨_, ti', hti', hnm⟩ := rest
                  rw [hxt] at hti'
                  cases hti'
                  simp [hnm]
            · rw [lastPageWrite_concat, if_neg (by simp [hpw])]; exact ihpid
            · rw [lastPageWrite_concat, if_neg (by simp [hpw])]; exact ihpt
            · intro s hs hws
              rcases List.mem_append.mp hs with hs | hs
              · exact ihres s hs hws
              · simp at hs; subst hs; rw [hpw] at hws; exact absurd hws (by simp)
        · -- the step's `type` is not "tool": nothing recorded
          have hpw : isPageWriteStep x = false := by
            rw [isPageWriteStep.eq_def, hxt]
            simp [htype]
          simp only [postStep, hxt] at h
          rw [if_neg htype] at h
          simp only [Except.ok.injEq, Prod.mk.injEq] at h
          obtain ⟨h1, h2, h3⟩ := h
          subst h1; subst h2; subst h3
          refine ⟨?_, ?_, ?_, ?_⟩
          · intro nm
            rw [ihmem nm]
            constructor
            · rintro ⟨s, hs, rest⟩; exact ⟨s, by simp [hs], rest⟩
            · rintro ⟨s, hs, rest⟩
              rcases List.mem_append.mp hs with hs | hs
              · exact ⟨s, hs, rest⟩
              · simp at hs; subst hs
                exact absurd rest.1 htype
          · rw [lastPageWrite_concat, if_neg (by simp [hpw])]; exact ihpid
          · rw [lastPageWrite_concat, if_neg (by simp [hpw])]; exact ihpt
          · intro s hs hws
            rcases List.mem_append.mp hs with hs | hs
            · exact ihres s hs hws
            · simp at hs; subst hs; rw [hpw] at hws; exact absurd hws (by simp)


/-! ## C1 — successful runs -/

/-- C1: when every required tool appears among the recorded steps (the
missing set is empty), the reply is the 200 success body whose
`pageId`/`title` equal the corresponding fields of the most recent
`createConfluencePage`/`updateConfluencePage` result among the recorded
steps; in particular a Generate run that executed all five required tools
— with the page store returning well-formed non-empty page ids at its
boundary — yields a non-empty `pageId`. -/
theorem complete_run_success_outcome (action : String)
    (requiredTools : List String) (steps : List StepInfo)
    (executed : List String) (pid ptitle : Option String)
    (h : processResultSteps steps = .ok (executed, pid, ptitle))
    (hm : requiredTools.filter (fun t => ! executed.contains t) = []) :
    (buildResponse action requiredTools steps).status = 200 ∧
    (buildResponse action requiredTools steps).success = true ∧
    (buildResponse action requiredTools steps).pageId =
      ((lastPageWrite steps).bind StepInfo.toolResult).bind RVal.pageIdField ∧
    (buildResponse action requiredTools steps).title =
      ((lastPageWrite steps).bind StepInfo.toolResult).bind RVal.titleField ∧
    (requiredTools = REQUIRED_TOOLS_GENERATE →
      (∀ s ∈ steps, isPageWriteStep s = true → ∀ rv, s.toolResult = some rv →
        ∃ p t, rv = RVal.pageRef p t ∧ p ≠ "") →
      ∃ p, (buildResponse action requiredTools steps).pageId = some p ∧ p ≠ "") := by
  obtain ⟨hmem, hpid, hpt, hres⟩ := processResultSteps_ok_spec steps executed pid ptitle h
  have hb : buildResponse action requiredTools steps =
      { status := 200, success := true, partialSuccess := none
        missingSteps := none, pageId := pid, title := ptitle
        message := some s!"Documentation {action} completed successfully."
        error := none, details := none } := by
    rw [buildResponse.eq_def, h]
    simp only [hm, List.isEmpty_nil, if_true]
  refine ⟨by rw [hb], by rw [hb], by rw [hb]; exact hpid, by rw [hb]; exact hpt, ?_⟩
  intro hreq hwf
  have hcont : executed.contains "createConfluencePage" = true := by
    have hni := List.filter_eq_nil_iff.mp hm "createConfluencePage" (by rw [hreq]; decide)
    simpa using hni
  obtain ⟨s, hsin, hstype, ti, hstool, hnm⟩ :=
    (hmem "createConfluencePage").mp (List.mem_of_elem_eq_true hcont)
  have hws : isPageWriteStep s = true := by
    rw [isPageWriteStep.eq_def, hstool]
    simp [hstype, hnm]
  have hfil : s ∈ steps.filter isPageWriteStep := List.mem_filter.mpr ⟨hsin, hws⟩
  have hne : steps.filter isPageWriteStep ≠ [] := by
    intro hnil; rw [hnil] at hfil; simp at hfil
  have hsome : (lastPageWrite steps).isSome := by
    unfold lastPageWrite
    exact List.getLast?_isSome.mpr hne
  obtain ⟨s', hs'⟩ := Option.isSome_iff_exists.mp hsome
  have hs'mem : s' ∈ steps.filter isPageWriteStep := by
    apply List.mem_of_mem_getLast?
    have hs'2 : (steps.filter isPageWriteStep).getLast? = some s' := hs'
    rw [hs'2]
    simp
  obtain ⟨hs'in, hs'w⟩ := List.mem_filter.mp hs'mem
  obtain ⟨rv, hrv⟩ := hres s' hs'in hs'w
  obtain ⟨p, t2, hrveq, hp⟩ := hwf s' hs'in hs'w rv hrv
  refine ⟨p, ?_, hp⟩
  rw [hb]
  show pid = some p
  rw [hpid, hs']
  simp [hrv, hrveq, RVal.pageIdField]

/-- C1 witness: a concrete complete Generate run succeeds with the
created page's id 99 and title, and the id is non-empty. -/
theorem complete_run_success_outcome_witness :
    (buildResponse "generate" REQUIRED_TOOLS_GENERATE generateRunSteps).success = true ∧
    (buildResponse "generate" REQUIRED_TOOLS_GENERATE generateRunSteps).pageId =
      ((lastPageWrite generateRunSteps).bind StepInfo.toolResult).bind RVal.pageIdField ∧
    (∃ p, (buildResponse "generate" REQUIRED_TOOLS_GENERATE generateRunSteps).pageId =
      some p ∧ p ≠ "") := by
  have h := complete_run_success_outcome "generate" REQUIRED_TOOLS_GENERATE
    generateRunSteps
    ["getFileContent", "getInternalDependencies", "getBusinessLogicHistory",
     "markdownToConfluence", "createConfluencePage"]
    (some "99") (some "Generated Doc") (by rfl) (by decide)
  refine ⟨h.2.1, h.2.2.1, h.2.2.2.2 rfl ?_⟩
  intro s hs hw rv hrv
  simp only [generateRunSteps, List.mem_cons, List.not_mem_nil, or_false] at hs
  rcases hs with rfl | rfl | rfl | rfl | rfl
  · exact absurd hw (by decide)
  · exact absurd hw (by decide)
  · exact absurd hw (by decide)
  · exact absurd hw (by decide)
  · injection hrv with hrv2
    exact ⟨"99", "Generated Doc", hrv2.symm, by decide⟩

/-! ## C3 — classification of incomplete runs -/

/-- C3: when required tools remain missing after the whole run, the reply
always has `success = false` and lists exactly the missing tools; for an
Update task whose missing set meets the publish-critical pair
{markdownToConfluence, updateConfluencePage} the reply is the distinct
critical-incompleteness body (naming the critical tools, with
`partialSuccess` true iff some required tool did execute); in every other
case it is the generic partial-success body (`partialSuccess = true`). -/
theorem incomplete_run_classification (action : String)
    (requiredTools : List String) (steps : List StepInfo)
    (executed : List String) (pid ptitle : Option String)
    (missing critical : List String)
    (h : processResultSteps steps = .ok (executed, pid, ptitle))
    (hmiss : missing = requiredTools.filter (fun t => ! executed.contains t))
    (hcrit : critical = missing.filter
      (fun t => (["markdownToConfluence", "updateConfluencePage"] : List String).contains t))
    (hm : missing ≠ []) :
    (buildResponse action requiredTools steps).status = 200 ∧
    (buildResponse action requiredTools steps).success = false ∧
    (buildResponse action requiredTools steps).missingSteps = some missing ∧
    (action = "update" → critical ≠ [] →
      (buildResponse action requiredTools steps).message =
        some ("Documentation update was incomplete. Critical tools were not executed: "
          ++ String.intercalate ", " critical) ∧
      (buildResponse action requiredTools steps).partialSuccess =
        some (decide (missing.length ≠ requiredTools.length))) ∧
    (¬ (action = "update" ∧ critical ≠ []) →
      (buildResponse action requiredTools steps).partialSuccess = some true ∧
      (buildResponse action requiredTools steps).message =
        some s!"Documentation {action} was incomplete. Some required tools were not executed.") := by
  by_cases hu : action = "update"
  · by_cases hc : critical = []
    · have hb : buildResponse action requiredTools steps =
          { status := 200, success := false, partialSuccess := some true
            missingSteps := some missing, pageId := none, title := none
            message := some s!"Documentation {action} was incomplete. Some required tools were not executed."
            error := none, details := none } := by
        rw [buildResponse.eq_def, h]
        simp only [← hmiss, hu, if_true, ← hcrit, hc]
        simp [hm]
      refine ⟨by rw [hb], by rw [hb], by rw [hb], ?_, fun _ => ⟨by rw [hb], by rw [hb]⟩⟩
      intro _ hcne
      exact absurd hc hcne
    · have hb : buildResponse action requiredTools steps =
          { status := 200, success := false
            partialSuccess := some (decide (missing.length ≠ requiredTools.length))
            missingSteps := some missing, pageId := none, title := none
            message := some ("Documentation update was incomplete. Critical tools were not executed: "
              ++ String.intercalate ", " critical)
            error := none, details := none } := by
        rw [buildResponse.eq_def, h]
        simp only [← hmiss, hu, if_true, ← hcrit]
        simp [hm, hc]
      refine ⟨by rw [hb], by rw [hb], by rw [hb],
        fun _ _ => ⟨by rw [hb], by rw [hb]⟩, ?_⟩
      intro hno
      exact absurd ⟨hu, hc⟩ hno
  · have hb : buildResponse action requiredTools steps =
        { status := 200, success := false, partialSuccess := some true
          missingSteps := some missing, pageId := none, title := none
          message := some s!"Documentation {action} was incomplete. Some required tools were not executed."
          error := none, details := none } := by
      rw [buildResponse.eq_def, h]
      simp only [← hmiss, hu]
      simp [hm, hu]
    refine ⟨by rw [hb], by rw [hb], by rw [hb], ?_, fun _ => ⟨by rw [hb], by rw [hb]⟩⟩
    intro hu'
    exact absurd hu' hu

/-- C3 witness: a concrete Update run that never called
`updateConfluencePage` gets the critical-incompleteness reply (success
false, `missingSteps = [updateConfluencePage]`, `partialSuccess = true`
because other required tools did run); a concrete incomplete Generate run
gets the generic partial-success reply. -/
theorem incomplete_run_classification_witness :
    (buildResponse "update" REQUIRED_TOOLS_UPDATE_WITH_PAGE_ID
        updateIncompleteSteps).success = false ∧
    (buildResponse "update" REQUIRED_TOOLS_UPDATE_WITH_PAGE_ID
        updateIncompleteSteps).missingSteps = some ["updateConfluencePage"] ∧
    (buildResponse "update" REQUIRED_TOOLS_UPDATE_WITH_PAGE_ID
        updateIncompleteSteps).message =
      some ("Documentation update was incomplete. Critical tools were not executed: "
        ++ String.intercalate ", " ["updateConfluencePage"]) ∧
    (buildResponse "update" REQUIRED_TOOLS_UPDATE_WITH_PAGE_ID
        updateIncompleteSteps).partialSuccess = some true ∧
    (buildResponse "generate" REQUIRED_TOOLS_GENERATE []).partialSuccess = some true := by
  have h1 := incomplete_run_classification "update" REQUIRED_TOOLS_UPDATE_WITH_PAGE_ID
    updateIncompleteSteps
    ["getConfluencePage", "getCommitDiff", "markdownToConfluence"]
    none none ["updateConfluencePage"] ["updateConfluencePage"]
    (by rfl) (by decide) (by decide) (by decide)
  have h2 := incomplete_run_classification "generate" REQUIRED_TOOLS_GENERATE []
    [] none none REQUIRED_TOOLS_GENERATE ["markdownToConfluence"]
    (by rfl) (by decide) (by decide) (by decide)
  obtain ⟨hmsg, hps⟩ := h1.2.2.2.1 rfl (by decide)
  refine ⟨h1.2.1, h1.2.2.1, hmsg, ?_, (h2.2.2.2.2 (by simp)).1⟩
  rw [hps]
  decide

/-! ## C7 — argument repair is idempotent on the pageId -/

/-- C7: for a Publish-phase `updateConfluencePage` call recorded with a
placeholder pageId while the discovered-entities cache holds a real
pageId P, argument repair rewrites the recorded pageId to P, and applying
the repair a second time to the already-repaired record leaves the pageId
unchanged at P. -/
theorem argument_repair_pageId_idempotent (r : Retrieved) (P : String)
    (args : ToolArgs) (hr : r.pageId = some P) (hP : P ≠ "")
    (hp : isPlaceholderPageId args.pageId = true) :
    (repairToolCall r ⟨"updateConfluencePage", args⟩).pageId = P ∧
    (repairToolCall r ⟨"updateConfluencePage",
        repairToolCall r ⟨"updateConfluencePage", args⟩⟩).pageId = P := by
  have hp' : args.pageId = "123" ∨ args.pageId = "[Retrieved pageId]" := by
    simpa [isPlaceholderPageId] using hp
  have hne : args.pageId ≠ "" := by
    rcases hp' with h | h <;> simp [h]
  have h1 : ∀ b : ToolArgs,
      repairToolCall r ⟨"updateConfluencePage", b⟩ =
        repairUpdateArgs P r.pageTitle r.pageVersion b := by
    intro b
    simp [repairToolCall, hr, hP]
  have h2 : (repairUpdateArgs P r.pageTitle r.pageVersion args).pageId = P := by
    simp [repairUpdateArgs, hne, hp]
  have h3 : ∀ b : ToolArgs, b.pageId = P →
      (repairUpdateArgs P r.pageTitle r.pageVersion b).pageId = P := by
    intro b hb
    simp only [repairUpdateArgs, hb]
    split <;> simp [hb]
  refine ⟨by rw [h1]; exact h2, ?_⟩
  rw [h1, h1]
  exact h3 _ h2

/-- C7 witness: with discovered page 42 and the engine's literal
"[Retrieved pageId]" argument, one repair yields 42 and a second repair
keeps it. -/
theorem argument_repair_pageId_idempotent_witness :
    (repairToolCall ⟨some "42", some "Doc Title", 3⟩
      ⟨"updateConfluencePage",
        { pageId := "[Retrieved pageId]", title := "[Retrieved title]"
          content := "c", version := .num 1 }⟩).pageId = "42" ∧
    (repairToolCall ⟨some "42", some "Doc Title", 3⟩
      ⟨"updateConfluencePage",
        repairToolCall ⟨some "42", some "Doc Title", 3⟩
          ⟨"updateConfluencePage",
            { pageId := "[Retrieved pageId]", title := "[Retrieved title]"
              content := "c", version := .num 1 }⟩⟩).pageId = "42" :=
  argument_repair_pageId_idempotent ⟨some "42", some "Doc Title", 3⟩ "42"
    { pageId := "[Retrieved pageId]", title := "[Retrieved title]"
      content := "c", version := .num 1 }
    rfl (by decide) (by decide)

/-! ## C10 — nesting of the title/version repair -/

/-- C10 counterexample: with a placeholder pageId "123" and a genuine,
non-placeholder title, the repair rewrites the pageId but leaves the
genuine title untouched — the claim's assertion that a genuine title
paired with a placeholder pageId is overwritten is false. -/
theorem title_repair_counterexample :
    (repairUpdateArgs "42" (some "Doc Title") 3
        { pageId := "123", title := "My Real Title", content := "c"
          version := .num 5 }) =
      { pageId := "42", title := "My Real Title", content := "c"
        version := .num 5 } ∧
    "My Real Title" ≠ "Doc Title" ∧ "My Real Title" ≠ "Documentation" := by
  refine ⟨by decide, by decide, by decide⟩

/-- C10 amended: title and version are rewritten only inside the branch
where the recorded pageId is a truthy sentinel ("123" or
"[Retrieved pageId]"); there, a recorded numeric version of 0 or 1 (so
also a genuine version 1) is treated as a placeholder and replaced with
the discovered version, a placeholder or falsy title is replaced with the
discovered title (defaulting to "Documentation"), but a genuine title is
preserved; outside that branch nothing — title or version included — is
repaired. -/
theorem repair_nesting_rules (rid : String) (rt : Option String) (rv : Int)
    (args : ToolArgs)
    (hsent : args.pageId ≠ "" ∧ isPlaceholderPageId args.pageId = true) :
    (repairUpdateArgs rid rt rv args).pageId = rid ∧
    (args.version = .num 1 → (repairUpdateArgs rid rt rv args).version = .num rv) ∧
    (args.version = .num 0 → (repairUpdateArgs rid rt rv args).version = .num rv) ∧
    (args.title ≠ "[Retrieved title]" → args.title ≠ "" →
      (repairUpdateArgs rid rt rv args).title = args.title) ∧
    (args.title = "[Retrieved title]" →
      (repairUpdateArgs rid rt rv args).title = jsOrElse rt "Documentation") ∧
    (∀ b : ToolArgs, ¬ (b.pageId ≠ "" ∧ isPlaceholderPageId b.pageId = true) →
      repairUpdateArgs rid rt rv b = b) := by
  refine ⟨?_, ?_, ?_, ?_, ?_, ?_⟩
  · simp [repairUpdateArgs, hsent]
  · intro hv; simp [repairUpdateArgs, hsent, hv]
  · intro hv; simp [repairUpdateArgs, hsent, hv]
  · intro ht1 ht2; simp [repairUpdateArgs, hsent, ht1, ht2]
  · intro ht; simp [repairUpdateArgs, hsent, ht]
  · intro b hb; simp [repairUpdateArgs, hb]

/-- C10 witness: at the sentinel pageId "123" with discovered version 3,
a recorded genuine version 1 is replaced by 3, a genuine title is kept,
and a record with a genuine pageId is returned unchanged. -/
theorem repair_nesting_rules_witness :
    (repairUpdateArgs "42" (some "Doc Title") 3
        { pageId := "123", title := "My Real Title", content := "c"
          version := .num 1 }).version = VVal.num 3 ∧
    (repairUpdateArgs "42" (some "Doc Title") 3
        { pageId := "123", title := "My Real Title", content := "c"
          version := .num 1 }).title = "My Real Title" ∧
    repairUpdateArgs "42" (some "Doc Title") 3
        { pageId := "987654", title := "[Retrieved title]", content := "c"
          version := .num 1 } =
      { pageId := "987654", title := "[Retrieved title]", content := "c"
        version := .num 1 } := by
  have h := repair_nesting_rules "42" (some "Doc Title") 3
    { pageId := "123", title := "My Real Title", content := "c"
      version := .num 1 } (by refine ⟨by decide, by decide⟩)
  exact ⟨h.2.1 rfl, h.2.2.2.1 (by decide) (by decide),
    h.2.2.2.2.2 _ (by decide)⟩

/-! ## Helper lemmas for the `executeAgent`-level claims -/

/-- Whenever the step scan completes without throwing, `POST` replies
with HTTP 200 (every outcome branch, success or not, is a 200). -/
theorem buildResponse_status_of_ok (action : String)
    (requiredTools : List String) (steps : List StepInfo)
    (st : List String × Option String × Option String)
    (h : processResultSteps steps = .ok st) :
    (buildResponse action requiredTools steps).status = 200 := by
  obtain ⟨ex, pid, pt⟩ := st
  rw [buildResponse.eq_def, h]
  dsimp only
  split
  · rfl
  · split <;> split <;> rfl

/-- Case description of the post-Retrieval chain: its session calls
extend the accumulated ones with at most one final-recovery call (at half
the final budget, and only when the final gate found missing tools), and
its steps extend the accumulated ones. -/
theorem executeAgentTail_spec (g : Bool) (ab fb : Nat)
    (script : EngineScript) (ir : SessionResult) (acc2 : List StepInfo)
    (calls2 : List SessionCall) :
    ∃ (tailCalls : List SessionCall) (tailSteps : List StepInfo),
      (executeAgentTail g ab fb script ir acc2 calls2).calls = calls2 ++ tailCalls ∧
      (executeAgentTail g ab fb script ir acc2 calls2).steps = acc2 ++ tailSteps ∧
      (∀ c ∈ tailCalls, c.phase = PhaseLabel.analysis ∨ c.phase = PhaseLabel.final ∨
        c.phase = PhaseLabel.finalRecovery) ∧
      (tailCalls.filter (fun c => c.phase == PhaseLabel.finalRecovery)).length ≤ 1 ∧
      (∀ c ∈ tailCalls, c.phase = PhaseLabel.finalRecovery → c.budget = fb / 2) ∧
      ((∃ c ∈ tailCalls, c.phase = PhaseLabel.finalRecovery) →
        ∃ fr, script.final = .ok fr ∧
          (finalRequiredTools g).filter
            (fun t => ! (executedNames fr.steps).contains t) ≠ []) := by
  cases hA : script.analysis with
  | error e =>
      refine ⟨[⟨.analysis, ab⟩], [], ?_, ?_, by simp, by simp, by simp, by simp⟩
      · rw [executeAgentTail.eq_def, hA]
      · rw [executeAgentTail.eq_def, hA]
        all_goals simp
  | ok ar =>
    cases hF : script.final with
    | error e =>
        refine ⟨[⟨.analysis, ab⟩, ⟨.final, fb⟩], ar.steps.map toStepInfo,
          ?_, ?_, by simp, by simp, by simp, by simp⟩
        · rw [executeAgentTail.eq_def, hA, hF]
          simp
        · rw [executeAgentTail.eq_def, hA, hF]
    | ok fr =>
      by_cases hMF : ((finalRequiredTools g).filter
          (fun t => ! (executedNames fr.steps).contains t)).isEmpty
      · refine ⟨[⟨.analysis, ab⟩, ⟨.final, fb⟩],
          ar.steps.map toStepInfo ++
            fr.steps.map (toStepInfoRepaired (computeRetrieved ir.steps)),
          ?_, ?_, by simp, by simp, by simp, by simp⟩
        · rw [executeAgentTail.eq_def, hA, hF]
          dsimp only
          rw [if_pos hMF]
          all_goals simp
        · rw [executeAgentTail.eq_def, hA, hF]
          dsimp only
          rw [if_pos hMF]
          all_goals simp
      · have hne : (finalRequiredTools g).filter
            (fun t => ! (executedNames fr.steps).contains t) ≠ [] := by
          intro hnil
          rw [hnil] at hMF
          simp at hMF
        cases hR : script.finalRecovery with
        | error e =>
            refine ⟨[⟨.analysis, ab⟩, ⟨.final, fb⟩, ⟨.finalRecovery, fb / 2⟩],
              ar.steps.map toStepInfo ++
                fr.steps.map (toStepInfoRepaired (computeRetrieved ir.steps)),
              ?_, ?_, by simp, by simp, by simp, fun _ => ⟨fr, rfl, hne⟩⟩
            · rw [executeAgentTail.eq_def, hA, hF, hR]
              dsimp only
              rw [if_neg hMF]
              all_goals simp
            · rw [executeAgentTail.eq_def, hA, hF, hR]
              dsimp only
              rw [if_neg hMF]
              all_goals simp
        | ok rr =>
            refine ⟨[⟨.analysis, ab⟩, ⟨.final, fb⟩, ⟨.finalRecovery, fb / 2⟩],
              ar.steps.map toStepInfo ++
                fr.steps.map (toStepInfoRepaired (computeRetrieved ir.steps)) ++
                rr.steps.map toStepInfo,
              ?_, ?_, by simp, by simp, by simp, fun _ => ⟨fr, rfl, hne⟩⟩
            · rw [executeAgentTail.eq_def, hA, hF, hR]
              dsimp only
              rw [if_neg hMF]
              all_goals simp
            · rw [executeAgentTail.eq_def, hA, hF, hR]
              dsimp only
              rw [if_neg hMF]
              all_goals simp

/-- One discovery-scan step never resets a populated pageId. -/
theorem updateRetrieved_pageId_isSome (r : Retrieved) (s : RawStep)
    (h : r.pageId.isSome) : (updateRetrieved r s).pageId.isSome := by
  rw [updateRetrieved.eq_def]
  repeat' split
  all_goals first | exact h | simp

/-- The discovery scan never resets a populated pageId. -/
theorem foldl_updateRetrieved_isSome (l : List RawStep) :
    ∀ r : Retrieved, r.pageId.isSome →
      (l.foldl updateRetrieved r).pageId.isSome := by
  induction l with
  | nil => intro r h; simpa using h
  | cons s l ih =>
      intro r h
      rw [List.foldl_cons]
      exact ih _ (updateRetrieved_pageId_isSome r s h)

/-- A raw step whose `getConfluencePage` call returned a full page
populates the discovered-entities cache with that page. -/
theorem computeRetrieved_populated (steps : List RawStep) (s : RawStep)
    (hs : s ∈ steps) (tc : RawToolCall) (rest : List RawToolCall)
    (p : PageMeta) (rrest : List RVal)
    (h1 : s.toolCalls = some (tc :: rest))
    (h2 : tc.toolName = "getConfluencePage")
    (h3 : s.toolResults = some (.page p :: rrest)) :
    (computeRetrieved steps).pageId.isSome := by
  obtain ⟨l1, l2, rfl⟩ := List.append_of_mem hs
  rw [computeRetrieved, List.foldl_append, List.foldl_cons]
  apply foldl_updateRetrieved_isSome
  have hupd : updateRetrieved (List.foldl updateRetrieved
      { pageId := none, pageTitle := none, pageVersion := 0 } l1) s =
      { pageId := some p.id, pageTitle := some p.title, pageVersion := p.version } := by
    rw [updateRetrieved.eq_def, h1]
    simp [h2, h3]
  rw [hupd]
  simp

/-! ## C6 — one recovery attempt per gated phase -/

/-- C6: in every run, each gated phase performs at most one recovery
session; a recovery runs only when that phase's gate found missing
required tools; its budget is half the phase budget (floored); and its
records are merged into the run's steps regardless of what the recovery
produced (the merge equalities hold for an arbitrary recovery result). -/
theorem recovery_at_most_once (sp : String) (script : EngineScript) (B : ℕ) :
    ((executeAgent sp script B).calls.filter
        (fun c => c.phase == PhaseLabel.initialRecovery)).length ≤ 1 ∧
    ((executeAgent sp script B).calls.filter
        (fun c => c.phase == PhaseLabel.finalRecovery)).length ≤ 1 ∧
    (∀ c ∈ (executeAgent sp script B).calls, c.phase = PhaseLabel.initialRecovery →
      c.budget = initialStepsBudget B / 2) ∧
    (∀ c ∈ (executeAgent sp script B).calls, c.phase = PhaseLabel.finalRecovery →
      c.budget = finalStepsBudget B / 2) ∧
    ((∃ c ∈ (executeAgent sp script B).calls, c.phase = PhaseLabel.initialRecovery) →
      ∃ ir, script.initial = .ok ir ∧
        (initialRequiredTools (jsIncludes sp "Generate Documentation in Confluence")).filter
          (fun t => ! (executedNames ir.steps).contains t) ≠ []) ∧
    ((∃ c ∈ (executeAgent sp script B).calls, c.phase = PhaseLabel.finalRecovery) →
      ∃ fr, script.final = .ok fr ∧
        (finalRequiredTools (jsIncludes sp "Generate Documentation in Confluence")).filter
          (fun t => ! (executedNames fr.steps).contains t) ≠ []) ∧
    (∀ ir rr, script.initial = .ok ir → script.initialRecovery = .ok rr →
      (initialRequiredTools (jsIncludes sp "Generate Documentation in Confluence")).filter
        (fun t => ! (executedNames ir.steps).contains t) ≠ [] →
      ∃ rest, (executeAgent sp script B).steps =
        ir.steps.map toStepInfo ++ rr.steps.map toStepInfo ++ rest) ∧
    (∀ ir ar fr rr, script.initial = .ok ir →
      (initialRequiredTools (jsIncludes sp "Generate Documentation in Confluence")).filter
        (fun t => ! (executedNames ir.steps).contains t) = [] →
      script.analysis = .ok ar → script.final = .ok fr →
      (finalRequiredTools (jsIncludes sp "Generate Documentation in Confluence")).filter
        (fun t => ! (executedNames fr.steps).contains t) ≠ [] →
      script.finalRecovery = .ok rr →
      (executeAgent sp script B).steps =
        ir.steps.map toStepInfo ++ ar.steps.map toStepInfo ++
          fr.steps.map (toStepInfoRepaired (computeRetrieved ir.steps)) ++
          rr.steps.map toStepInfo) := by
  cases hI : script.initial with
  | error e =>
    have hE : executeAgent sp script B =
        { response := errorMessageFor e, steps := []
          calls := [⟨.initial, initialStepsBudget B⟩] } := by
      rw [executeAgent.eq_def, hI]
    refine ⟨?_, ?_, ?_, ?_, ?_, ?_, ?_, ?_⟩
    · rw [hE]; simp
    · rw [hE]; simp
    · rw [hE]; simp
    · rw [hE]; simp
    · rw [hE]; simp
    · rw [hE]; simp
    · intro ir rr hir; simp at hir
    · intro ir ar fr rr hir; simp at hir
  | ok ir =>
    by_cases hMI : ((initialRequiredTools
        (jsIncludes sp "Generate Documentation in Confluence")).filter
        (fun t => ! (executedNames ir.steps).contains t)).isEmpty
    · -- gate passed: no initial recovery
      have hE : executeAgent sp script B =
          executeAgentTail (jsIncludes sp "Generate Documentation in Confluence")
            (analysisStepsBudget B) (finalStepsBudget B) script ir
            (ir.steps.map toStepInfo) [⟨.initial, initialStepsBudget B⟩] := by
        rw [executeAgent.eq_def, hI]
        dsimp only
        rw [if_pos hMI]
      obtain ⟨tc, ts, hcalls, hsteps, hph, hcnt, hbud, hfrc⟩ :=
        executeAgentTail_spec (jsIncludes sp "Generate Documentation in Confluence")
          (analysisStepsBudget B) (finalStepsBudget B) script ir
          (ir.steps.map toStepInfo) [⟨.initial, initialStepsBudget B⟩]
      have hntc : ∀ c ∈ tc, ¬ c.phase = PhaseLabel.initialRecovery := by
        intro c hc h
        rcases hph c hc with h' | h' | h' <;> rw [h] at h' <;> exact absurd h' (by decide)
      refine ⟨?_, ?_, ?_, ?_, ?_, ?_, ?_, ?_⟩
      · rw [hE, hcalls]
        rw [List.filter_append]
        have : tc.filter (fun c => c.phase == PhaseLabel.initialRecovery) = [] := by
          apply List.filter_eq_nil_iff.mpr
          intro c hc
          simp only [beq_iff_eq]
          exact fun hcc => hntc c hc (by simpa using hcc)
        rw [this]
        simp
      · rw [hE, hcalls, List.filter_append]
        have h0 : ([⟨.initial, initialStepsBudget B⟩] :
            List SessionCall).filter (fun c => c.phase == PhaseLabel.finalRecovery) = [] := by
          simp
        rw [h0]
        simpa using hcnt
      · rw [hE, hcalls]
        intro c hc h
        rcases List.mem_append.mp hc with hc | hc
        · simp at hc; rw [hc] at h; simp at h
        · exact absurd h (hntc c hc)
      · rw [hE, hcalls]
        intro c hc h
        rcases List.mem_append.mp hc with hc | hc
        · simp at hc; rw [hc] at h; simp at h
        · exact hbud c hc h
      · rw [hE, hcalls]
        rintro ⟨c, hc, h⟩
        rcases List.mem_append.mp hc with hc | hc
        · simp at hc; rw [hc] at h; simp at h
        · exact absurd h (hntc c hc)
      · rw [hE, hcalls]
        rintro ⟨c, hc, h⟩
        rcases List.mem_append.mp hc with hc | hc
        · simp at hc; rw [hc] at h; simp at h
        · exact hfrc ⟨c, hc, h⟩
      · intro ir' rr hir' _ hmiss
        have : ir' = ir := by injection hir' with h'; exact h'.symm
        subst this
        exact absurd (List.isEmpty_iff.mp hMI) hmiss
      · intro ir' ar fr rr hir' hgate hA hF hMF hR
        have : ir' = ir := by injection hir' with h'; exact h'.symm
        subst this
        rw [hE, executeAgentTail.eq_def, hA, hF, hR]
        dsimp only
        rw [if_neg (by simpa using hMF)]
    · -- gate failed: exactly one initial recovery is attempted
      have hmiss : (initialRequiredTools
          (jsIncludes sp "Generate Documentation in Confluence")).filter
          (fun t => ! (executedNames ir.steps).contains t) ≠ [] := by
        intro hnil; rw [hnil] at hMI; simp at hMI
      cases hR : script.initialRecovery with
      | error e =>
        have hE : executeAgent sp script B =
            { response := errorMessageFor e
              steps := ir.steps.map toStepInfo
              calls := [⟨.initial, initialStepsBudget B⟩,
                        ⟨.initialRecovery, initialStepsBudget B / 2⟩] } := by
          rw [executeAgent.eq_def, hI]
          dsimp only
          rw [if_neg hMI, hR]
        refine ⟨?_, ?_, ?_, ?_, ?_, ?_, ?_, ?_⟩
        · rw [hE]; simp
        · rw [hE]; simp
        · rw [hE]
          intro c hc h
          rcases List.mem_cons.mp hc with hc | hc
          · rw [hc] at h; simp at h
          · simp at hc; rw [hc]
        · rw [hE]
          intro c hc h
          rcases List.mem_cons.mp hc with hc | hc
          · rw [hc] at h; simp at h
          · simp at hc; rw [hc] at h; simp at h
        · intro _; exact ⟨ir, rfl, hmiss⟩
        · rw [hE]
          rintro ⟨c, hc, h⟩
          rcases List.mem_cons.mp hc with hc | hc
          · rw [hc] at h; simp at h
          · simp at hc; rw [hc] at h; simp at h
        · intro ir' rr hir' hrr
          exact absurd hrr (by simp)
        · intro ir' ar fr rr hir' hgate _ _ _ _
          have : ir' = ir := by injection hir' with h'; exact h'.symm
          subst this
          exact absurd hgate hmiss
      | ok rr0 =>
        have hE : executeAgent sp script B =
            executeAgentTail (jsIncludes sp "Generate Documentation in Confluence")
              (analysisStepsBudget B) (finalStepsBudget B) script ir
              (ir.steps.map toStepInfo ++ rr0.steps.map toStepInfo)
              [⟨.initial, initialStepsBudget B⟩,
               ⟨.initialRecovery, initialStepsBudget B / 2⟩] := by
          rw [executeAgent.eq_def, hI]
          dsimp only
          rw [if_neg hMI, hR]
        obtain ⟨tc, ts, hcalls, hsteps, hph, hcnt, hbud, hfrc⟩ :=
          executeAgentTail_spec (jsIncludes sp "Generate Documentation in Confluence")
            (analysisStepsBudget B) (finalStepsBudget B) script ir
            (ir.steps.map toStepInfo ++ rr0.steps.map toStepInfo)
            [⟨.initial, initialStepsBudget B⟩,
             ⟨.initialRecovery, initialStepsBudget B / 2⟩]
        have hntc : ∀ c ∈ tc, ¬ c.phase = PhaseLabel.initialRecovery := by
          intro c hc h
          rcases hph c hc with h' | h' | h' <;> rw [h] at h' <;> exact absurd h' (by decide)
        refine ⟨?_, ?_, ?_, ?_, ?_, ?_, ?_, ?_⟩
        · rw [hE, hcalls, List.filter_append]
          have h1 : tc.filter (fun c => c.phase == PhaseLabel.initialRecovery) = [] := by
            apply List.filter_eq_nil_iff.mpr
            intro c hc
            simp only [beq_iff_eq]
            exact fun hcc => hntc c hc (by simpa using hcc)
          rw [h1]
          simp
        · rw [hE, hcalls, List.filter_append]
          have h0 : ([⟨.initial, initialStepsBudget B⟩,
              ⟨.initialRecovery, initialStepsBudget B / 2⟩] :
              List SessionCall).filter (fun c => c.phase == PhaseLabel.finalRecovery) = [] := by
            simp
          rw [h0]
          simpa using hcnt
        · rw [hE, hcalls]
          intro c hc h
          rcases List.mem_append.mp hc with hc | hc
          · rcases List.mem_cons.mp hc with hc | hc
            · rw [hc] at h; simp at h
            · simp at hc; rw [hc]
          · exact absurd h (hntc c hc)
        · rw [hE, hcalls]
          intro c hc h
          rcases List.mem_append.mp hc with hc | hc
          · rcases List.mem_cons.mp hc with hc | hc
            · rw [hc] at h; simp at h
            · simp at hc; rw [hc] at h; simp at h
          · exact hbud c hc h
        · intro _; exact ⟨ir, rfl, hmiss⟩
        · rw [hE, hcalls]
          rintro ⟨c, hc, h⟩
          rcases List.mem_append.mp hc with hc | hc
          · rcases List.mem_cons.mp hc with hc | hc
            · rw [hc] at h; simp at h
            · simp at hc; rw [hc] at h; simp at h
          · exact hfrc ⟨c, hc, h⟩
        · intro ir' rr hir' hrr _
          have hi : ir' = ir := by injection hir' with h'; exact h'.symm
          subst hi
          have hr : rr = rr0 := by injection hrr with h'; exact h'.symm
          subst hr
          refine ⟨ts, ?_⟩
          rw [hE, hsteps]
        · intro ir' ar fr rr hir' hgate _ _ _ _
          have : ir' = ir := by injection hir' with h'; exact h'.symm
          subst this
          exact absurd hgate hmiss

/-- C6 witness: in a concrete run that misses the retrieval gate and then
the publish gate, each recovery fires exactly once at half budget, and
the specific merge equality holds. -/
theorem recovery_at_most_once_witness :
    ((executeAgent (getSystemPrompt "update") benignScript MAX_STEPS).calls.filter
        (fun c => c.phase == PhaseLabel.initialRecovery)).length ≤ 1 ∧
    ((executeAgent (getSystemPrompt "update") benignScript MAX_STEPS).calls.filter
        (fun c => c.phase == PhaseLabel.finalRecovery)).length ≤ 1 ∧
    (∃ rest, (executeAgent (getSystemPrompt "update") benignScript MAX_STEPS).steps =
      emptySession.steps.map toStepInfo ++ emptySession.steps.map toStepInfo ++ rest) ∧
    (executeAgent (getSystemPrompt "update") lateDiscoveryScript MAX_STEPS).steps =
      (⟨"t1", [stepCommitDiff]⟩ : SessionResult).steps.map toStepInfo ++
        (⟨"t2", [stepGetPage]⟩ : SessionResult).steps.map toStepInfo ++
        (⟨"t3", [stepUpdatePlaceholder]⟩ : SessionResult).steps.map
          (toStepInfoRepaired (computeRetrieved [stepCommitDiff])) ++
        (⟨"t4", []⟩ : SessionResult).steps.map toStepInfo := by
  have h1 := recovery_at_most_once (getSystemPrompt "update") benignScript MAX_STEPS
  have h2 := recovery_at_most_once (getSystemPrompt "update") lateDiscoveryScript MAX_STEPS
  refine ⟨h1.1, h1.2.1, ?_, ?_⟩
  · exact h1.2.2.2.2.2.2.1 emptySession emptySession rfl rfl (by decide)
  · exact h2.2.2.2.2.2.2.2 ⟨"t1", [stepCommitDiff]⟩ ⟨"t2", [stepGetPage]⟩
      ⟨"t3", [stepUpdatePlaceholder]⟩ ⟨"t4", []⟩ rfl (by decide) rfl rfl
      (by decide) rfl

/-! ## C2 — failure semantics of engine/collaborator exceptions -/

/-- C2 counterexample: with a clean Retrieval and Analysis, a Publish
session that throws (`Failed to update Confluence page: ...`, a
collaborator exception) does NOT terminate the task: `POST` still replies
HTTP 200 with a synthesized partial Outcome (success false, the
unexecuted tools listed) and no error field — the exception was caught
inside `executeAgent` and never propagated. -/
theorem publish_failure_counterexample :
    (postHandler updateRequest publishFailureScript).1.status = 200 ∧
    (postHandler updateRequest publishFailureScript).1.success = false ∧
    (postHandler updateRequest publishFailureScript).1.error = none ∧
    (postHandler updateRequest publishFailureScript).1.missingSteps =
      some ["getConfluencePage", "markdownToConfluence", "updateConfluencePage"] := by
  refine ⟨by decide, by decide, by decide, by decide⟩

/-- C2 amended: an engine failure or collaborator exception in a phase is
caught by `executeAgent`'s single catch: the run returns normally with
the steps recorded before the failure and the classified error message as
its response text, and `POST` then synthesizes a (non-fatal, HTTP 200)
Outcome from those steps whenever its own scan completes. -/
theorem engine_failure_caught (sp e : String) (script : EngineScript)
    (B : ℕ) (ir ar : SessionResult)
    (h1 : script.initial = .ok ir)
    (hgate : (initialRequiredTools (jsIncludes sp "Generate Documentation in Confluence")).filter
      (fun t => ! (executedNames ir.steps).contains t) = [])
    (h2 : script.analysis = .ok ar)
    (h3 : script.final = .error e) :
    (executeAgent sp script B).response = errorMessageFor e ∧
    (executeAgent sp script B).steps =
      ir.steps.map toStepInfo ++ ar.steps.map toStepInfo ∧
    (∀ action requiredTools st,
      processResultSteps (executeAgent sp script B).steps = .ok st →
      (buildResponse action requiredTools (executeAgent sp script B).steps).status = 200) := by
  have hE : executeAgent sp script B =
      executeAgentTail (jsIncludes sp "Generate Documentation in Confluence")
        (analysisStepsBudget B) (finalStepsBudget B) script ir
        (ir.steps.map toStepInfo) [⟨.initial, initialStepsBudget B⟩] := by
    rw [executeAgent.eq_def, h1]
    dsimp only
    rw [if_pos (by rw [hgate]; rfl)]
  refine ⟨?_, ?_, ?_⟩
  · rw [hE, executeAgentTail.eq_def, h2, h3]
  · rw [hE, executeAgentTail.eq_def, h2, h3]
  · intro action requiredTools st hok
    exact buildResponse_status_of_ok action requiredTools _ st hok

/-- C2 witness: the concrete publish-failure run returns normally with
the classified Confluence-API error message, keeps the Retrieval step,
and the outcome built from it has status 200. -/
theorem engine_failure_caught_witness :
    (executeAgent (getSystemPrompt "update") publishFailureScript MAX_STEPS).response =
      errorMessageFor "Failed to update Confluence page: Request failed with status code 409" ∧
    (executeAgent (getSystemPrompt "update") publishFailureScript MAX_STEPS).steps =
      [toStepInfo stepCommitDiff] ∧
    (buildResponse "update" REQUIRED_TOOLS_UPDATE_WITH_PAGE_ID
      (executeAgent (getSystemPrompt "update") publishFailureScript MAX_STEPS).steps).status =
      200 := by
  have h := engine_failure_caught (getSystemPrompt "update")
    "Failed to update Confluence page: Request failed with status code 409"
    publishFailureScript MAX_STEPS ⟨"t1", [stepCommitDiff]⟩ ⟨"t2", []⟩
    rfl (by decide) rfl rfl
  refine ⟨h.1, ?_, ?_⟩
  · rw [h.2.1]
    simp
  · exact h.2.2 "update" REQUIRED_TOOLS_UPDATE_WITH_PAGE_ID
      (["getCommitDiff"], none, none) (by rfl)

/-! ## C8 — the discovered-entities cache -/

/-- C8 counterexample: a `getConfluencePage` result that arrives in the
Analysis session does not populate the cache — the Publish session's
recorded `updateConfluencePage` call keeps its placeholder pageId even
though that same step would have populated the cache had it occurred in
the initial Retrieval session (second conjunct). -/
theorem discovered_entities_counterexample :
    (executeAgent (getSystemPrompt "update") lateDiscoveryScript MAX_STEPS).steps[2]? =
      some { type := .tool
             tool := some ⟨"updateConfluencePage",
               { pageId := "[Retrieved pageId]", title := "[Retrieved title]"
                 content := "c", version := .num 1 }⟩
             text := none
             toolResult := some (.pageRef "42" "Doc Title") } ∧
    (computeRetrieved [stepGetPage]).pageId = some "42" := by
  refine ⟨by decide, by decide⟩

/-- C8 amended: the discovered-entities cache is populated from the
initial Retrieval session's own steps only — a `getConfluencePage` page
result among those steps populates it (second conjunct), it is never
cleared by later scanned steps (first conjunct), and the repair applied
to the Publish session's records uses exactly the cache computed from the
initial session's steps (third conjunct); get-page results in recovery,
Analysis or Publish sessions never reach it. -/
theorem discovered_entities_cache (steps extra : List RawStep)
    (sp : String) (script : EngineScript) (B : ℕ) (ir ar fr : SessionResult)
    (s : RawStep) (tc : RawToolCall) (rest : List RawToolCall)
    (p : PageMeta) (rrest : List RVal) :
    ((computeRetrieved steps).pageId.isSome →
      (computeRetrieved (steps ++ extra)).pageId.isSome) ∧
    (s ∈ steps → s.toolCalls = some (tc :: rest) →
      tc.toolName = "getConfluencePage" →
      s.toolResults = some (.page p :: rrest) →
      (computeRetrieved steps).pageId.isSome) ∧
    (script.initial = .ok ir →
      (initialRequiredTools (jsIncludes sp "Generate Documentation in Confluence")).filter
        (fun t => ! (executedNames ir.steps).contains t) = [] →
      script.analysis = .ok ar → script.final = .ok fr →
      ∃ tail, (executeAgent sp script B).steps =
        ir.steps.map toStepInfo ++ ar.steps.map toStepInfo ++
          fr.steps.map (toStepInfoRepaired (computeRetrieved ir.steps)) ++ tail) := by
  refine ⟨?_, ?_, ?_⟩
  · intro h
    rw [computeRetrieved, List.foldl_append, ← computeRetrieved]
    exact foldl_updateRetrieved_isSome extra _ h
  · intro hs h1 h2 h3
    exact computeRetrieved_populated steps s hs tc rest p rrest h1 h2 h3
  · intro hI hgate hA hF
    have hE : executeAgent sp script B =
        executeAgentTail (jsIncludes sp "Generate Documentation in Confluence")
          (analysisStepsBudget B) (finalStepsBudget B) script ir
          (ir.steps.map toStepInfo) [⟨.initial, initialStepsBudget B⟩] := by
      rw [executeAgent.eq_def, hI]
      dsimp only
      rw [if_pos (by rw [hgate]; rfl)]
    rw [hE, executeAgentTail.eq_def, hA, hF]
    dsimp only
    by_cases hMF : ((finalRequiredTools
        (jsIncludes sp "Generate Documentation in Confluence")).filter
        (fun t => ! (executedNames fr.steps).contains t)).isEmpty
    · rw [if_pos hMF]
      exact ⟨[], by simp⟩
    · rw [if_neg hMF]
      cases hRc : script.finalRecovery with
      | error e => exact ⟨[], by simp⟩
      | ok rr => exact ⟨rr.steps.map toStepInfo, by simp⟩

/-- C8 witness: the get-page step populates the cache with page 42 when
it is among the scanned steps, the population survives appending further
steps, and in a concrete clean run the Publish records are repaired with
the cache computed from the Retrieval steps alone. -/
theorem discovered_entities_cache_witness :
    (computeRetrieved [stepGetPage]).pageId.isSome ∧
    (computeRetrieved ([stepGetPage] ++ [stepCommitDiff])).pageId.isSome ∧
    (∃ tail,
      (executeAgent (getSystemPrompt "update") lateDiscoveryScript MAX_STEPS).steps =
        [stepCommitDiff].map toStepInfo ++ [stepGetPage].map toStepInfo ++
          [stepUpdatePlaceholder].map
            (toStepInfoRepaired (computeRetrieved [stepCommitDiff])) ++ tail) := by
  have h := discovered_entities_cache [stepGetPage] [stepCommitDiff]
    (getSystemPrompt "update") lateDiscoveryScript MAX_STEPS
    ⟨"t1", [stepCommitDiff]⟩ ⟨"t2", [stepGetPage]⟩ ⟨"t3", [stepUpdatePlaceholder]⟩
    stepGetPage ⟨"getConfluencePage", dummyArgs⟩ [] ⟨"42", "Doc Title", 3⟩ []
  have hpop := h.2.1 (by decide) (by decide) (by decide) (by decide)
  exact ⟨hpop, h.1 hpop, h.2.2 rfl (by decide) rfl rfl⟩

end AutoDoc
